import Mathlib

/-!
Shallow embedding of the `simple-vector2d` Rust crate (`src/lib.rs`).

The crate defines one value type, `Vector2<T>(pub T, pub T)`, with
component-wise arithmetic operators, geometric queries bounded by
`num_traits::Float`, classification predicates, and conversions to and
from arrays and tuples.

Modelling choices:
* `Vector2 T` is a Lean structure with fields `x`, `y` standing for the
  positional fields `.0`, `.1` of the Rust tuple struct.
* The `num_traits::Float` bound is modelled by the typeclass
  `FloatScalar`, carrying exactly the operations the crate uses
  (`sqrt`, `powi`, `sin`, `cos`, `atan2`, the classification
  predicates) on top of the arithmetic operations.
* Two scalar models instantiate `FloatScalar`:
  - `ℝ`, the idealized real-number semantics of `f32`/`f64` (exact
    arithmetic, no rounding, no NaN or infinities; division by zero
    yields `0` since `ℝ` has no infinities). Used for the algebraic
    and trigonometric properties, which the spec states up to floating
    tolerance or as exact component identities.
  - `F64`, an idealized IEEE-754 structure model: a value is NaN, a
    signed infinity, or a finite value carried as an exact real (no
    rounding or overflow, a single zero). Used for the properties that
    are about NaN / infinity propagation and classification.
-/

/-- Representation of a mathematical vector, modelling the Rust tuple
struct `Vector2<T>(pub T, pub T)`; `x` is field `.0`, `y` is field `.1`. -/
@[ext]
structure Vector2 (T : Type) where
  x : T
  y : T

/-- The subset of the `num_traits::Float` interface used by the crate:
arithmetic plus `sqrt`, `powi`, `sin`, `cos`, `atan2` and the IEEE
classification predicates. -/
class FloatScalar (T : Type) extends Add T, Sub T, Mul T, Div T, Neg T where
  sqrt : T → T
  powi : T → ℤ → T
  sin : T → T
  cos : T → T
  atan2 : T → T → T
  is_nan : T → Bool
  is_infinite : T → Bool
  is_finite : T → Bool
  is_normal : T → Bool

/-- Model of `Float::sin_cos`, which returns `(self.sin(), self.cos())`. -/
def FloatScalar.sin_cos {T : Type} [FloatScalar T] (x : T) : T × T :=
  (FloatScalar.sin x, FloatScalar.cos x)

/-- Model of `consts::ZERO_F32` / `consts::ZERO_F64`, the zero vector `(0, 0)`. -/
def consts.ZERO : Vector2 ℝ := ⟨0, 0⟩

/-- Model of `impl<T: Add> Add for Vector2<T>`: component-wise sum. -/
def Vector2.add {T : Type} [Add T] (a rhs : Vector2 T) : Vector2 T :=
  ⟨a.x + rhs.x, a.y + rhs.y⟩

/-- Model of `impl<T: Sub> Sub for Vector2<T>`: component-wise difference. -/
def Vector2.sub {T : Type} [Sub T] (a rhs : Vector2 T) : Vector2 T :=
  ⟨a.x - rhs.x, a.y - rhs.y⟩

/-- Model of `impl<T: Mul + Copy> Mul<T> for Vector2<T>`: both components
multiplied by the scalar on the right. -/
def Vector2.mul {T : Type} [Mul T] (a : Vector2 T) (rhs : T) : Vector2 T :=
  ⟨a.x * rhs, a.y * rhs⟩

/-- Model of `impl<T: Div + Copy> Div<T> for Vector2<T>`: both components
divided by the scalar on the right. -/
def Vector2.div {T : Type} [Div T] (a : Vector2 T) (rhs : T) : Vector2 T :=
  ⟨a.x / rhs, a.y / rhs⟩

/-- Model of `impl<T: Neg> Neg for Vector2<T>`: component-wise negation. -/
def Vector2.neg {T : Type} [Neg T] (a : Vector2 T) : Vector2 T :=
  ⟨-a.x, -a.y⟩

/-- Model of `impl<T: AddAssign> AddAssign for Vector2<T>`. The in-place
update `self.0 += rhs.0; self.1 += rhs.1` is modelled by explicit state
passing (old value in, new value out); the scalar `+=` of the numeric
scalar types is the pure scalar `+`. -/
def Vector2.add_assign {T : Type} [Add T] (a rhs : Vector2 T) : Vector2 T :=
  ⟨a.x + rhs.x, a.y + rhs.y⟩

/-- Model of `impl<T: SubAssign> SubAssign for Vector2<T>`, as state passing. -/
def Vector2.sub_assign {T : Type} [Sub T] (a rhs : Vector2 T) : Vector2 T :=
  ⟨a.x - rhs.x, a.y - rhs.y⟩

/-- Model of `impl<T: MulAssign + Copy> MulAssign<T> for Vector2<T>`, as
state passing. -/
def Vector2.mul_assign {T : Type} [Mul T] (a : Vector2 T) (rhs : T) : Vector2 T :=
  ⟨a.x * rhs, a.y * rhs⟩

/-- Model of `impl<T: DivAssign + Copy> DivAssign<T> for Vector2<T>`, as
state passing. -/
def Vector2.div_assign {T : Type} [Div T] (a : Vector2 T) (rhs : T) : Vector2 T :=
  ⟨a.x / rhs, a.y / rhs⟩

/-- Model of `Vector2::normal`: the perpendicular vector `(-y, x)`. -/
def Vector2.normal {T : Type} [Neg T] (a : Vector2 T) : Vector2 T :=
  ⟨-a.y, a.x⟩

/-- Model of `Vector2::dot`: `self.0 * other.0 + self.1 * other.1`. -/
def Vector2.dot {T : Type} [Mul T] [Add T] (a other : Vector2 T) : T :=
  a.x * other.x + a.y * other.y

/-- Model of `Vector2::det`: `self.0 * other.1 - self.1 * other.0`. -/
def Vector2.det {T : Type} [Mul T] [Sub T] (a other : Vector2 T) : T :=
  a.x * other.y - a.y * other.x

/-- Model of `Vector2::unit_vector`: `let (y, x) = direction.sin_cos();
Vector2(x, y)`. -/
def Vector2.unit_vector {T : Type} [FloatScalar T] (direction : T) : Vector2 T :=
  let yx := FloatScalar.sin_cos direction
  ⟨yx.2, yx.1⟩

/-- Model of `Vector2::length_squared`: `self.0.powi(2) + self.1.powi(2)`. -/
def Vector2.length_squared {T : Type} [FloatScalar T] (a : Vector2 T) : T :=
  FloatScalar.powi a.x 2 + FloatScalar.powi a.y 2

/-- Model of `Vector2::length`: `self.length_squared().sqrt()`. -/
def Vector2.length {T : Type} [FloatScalar T] (a : Vector2 T) : T :=
  FloatScalar.sqrt a.length_squared

/-- Model of `Vector2::normalise`: `self / self.length()`. -/
def Vector2.normalise {T : Type} [FloatScalar T] (a : Vector2 T) : Vector2 T :=
  a.div a.length

/-- Model of `Vector2::direction`: `self.1.atan2(self.0)`. -/
def Vector2.direction {T : Type} [FloatScalar T] (a : Vector2 T) : T :=
  FloatScalar.atan2 a.y a.x

/-- Model of `Vector2::direction_to`: `(other - self).direction()`. -/
def Vector2.direction_to {T : Type} [FloatScalar T] (a other : Vector2 T) : T :=
  (other.sub a).direction

/-- Model of `Vector2::distance_to`: `(other - self).length()`. -/
def Vector2.distance_to {T : Type} [FloatScalar T] (a other : Vector2 T) : T :=
  (other.sub a).length

/-- Model of `Vector2::distance_to_squared`: `(other - self).length_squared()`. -/
def Vector2.distance_to_squared {T : Type} [FloatScalar T] (a other : Vector2 T) : T :=
  (other.sub a).length_squared

/-- Model of `Vector2::is_any_nan`: `self.0.is_nan() || self.1.is_nan()`. -/
def Vector2.is_any_nan {T : Type} [FloatScalar T] (a : Vector2 T) : Bool :=
  FloatScalar.is_nan a.x || FloatScalar.is_nan a.y

/-- Model of `Vector2::is_any_infinite`: `self.0.is_infinite() || self.1.is_infinite()`. -/
def Vector2.is_any_infinite {T : Type} [FloatScalar T] (a : Vector2 T) : Bool :=
  FloatScalar.is_infinite a.x || FloatScalar.is_infinite a.y

/-- Model of `Vector2::is_all_finite`: `self.0.is_finite() && self.1.is_finite()`. -/
def Vector2.is_all_finite {T : Type} [FloatScalar T] (a : Vector2 T) : Bool :=
  FloatScalar.is_finite a.x && FloatScalar.is_finite a.y

/-- Model of `Vector2::is_all_normal`: `self.0.is_normal() && self.1.is_normal()`. -/
def Vector2.is_all_normal {T : Type} [FloatScalar T] (a : Vector2 T) : Bool :=
  FloatScalar.is_normal a.x && FloatScalar.is_normal a.y

/-- Model of `impl Into<[T; 2]> for Vector2<T>`: the array `[self.0, self.1]`,
a 2-element array modelled as a function out of `Fin 2`. -/
def Vector2.into_array {T : Type} (a : Vector2 T) : Fin 2 → T :=
  ![a.x, a.y]

/-- Model of `impl<T: Copy> From<[T; 2]> for Vector2<T>`:
`Vector2(array[0], array[1])`. -/
def Vector2.from_array {T : Type} (array : Fin 2 → T) : Vector2 T :=
  ⟨array 0, array 1⟩

/-- Model of `impl Into<(T, T)> for Vector2<T>`: the tuple `(self.0, self.1)`. -/
def Vector2.into_tuple {T : Type} (a : Vector2 T) : T × T :=
  (a.x, a.y)

/-- Model of `impl<T> From<(T, T)> for Vector2<T>`: `Vector2(tuple.0, tuple.1)`. -/
def Vector2.from_tuple {T : Type} (tuple : T × T) : Vector2 T :=
  ⟨tuple.1, tuple.2⟩

/-- Real-number semantics of `f64::atan2(y, x)` (called as `y.atan2(x)`):
the angle of the point `(x, y)`, in `(-π, π]`, with the standard IEEE
sign and quadrant conventions on real (finite) inputs; `atan2R 0 0 = 0`
as for IEEE `+0`. -/
noncomputable def atan2R (y x : ℝ) : ℝ :=
  if 0 < x then Real.arctan (y / x)
  else if x < 0 then
    (if 0 ≤ y then Real.arctan (y / x) + Real.pi else Real.arctan (y / x) - Real.pi)
  else
    (if 0 < y then Real.pi / 2 else if y < 0 then -(Real.pi / 2) else 0)

/-- Idealized real-number model of `f32` / `f64`: exact real arithmetic,
no rounding, no NaN and no infinities (so `is_nan` and `is_infinite` are
constantly false and `is_finite` constantly true; subnormals are not
representable, so `is_normal` means nonzero; division by zero yields `0`
because `ℝ` has no infinity — NaN/infinity behaviour lives in the `F64`
model instead). -/
noncomputable instance instFloatScalarReal : FloatScalar ℝ where
  sqrt := Real.sqrt
  powi x n := x ^ n
  sin := Real.sin
  cos := Real.cos
  atan2 := atan2R
  is_nan _ := false
  is_infinite _ := false
  is_finite _ := true
  is_normal x := decide (x ≠ 0)

/-- Idealized IEEE-754 structure model of `f64` (and `f32`): a value is
NaN, an infinity with a sign (`neg = true` for `-∞`), or a finite value
carried as an exact real number. Finite arithmetic is exact (no rounding
and no overflow) and there is a single zero (no `-0.0`); NaN and
infinity propagation follows IEEE-754. -/
inductive F64 where
  | nan : F64
  | inf : Bool → F64
  | fin : ℝ → F64

/-- IEEE negation on `F64`. -/
noncomputable def F64.neg : F64 → F64
  | .nan => .nan
  | .inf s => .inf (!s)
  | .fin r => .fin (-r)

/-- IEEE addition on `F64`: NaN propagates, `∞ + (-∞)` is NaN, an
infinity absorbs finite addends, finite addition is exact. -/
noncomputable def F64.add : F64 → F64 → F64
  | .nan, _ => .nan
  | _, .nan => .nan
  | .inf s, .inf t => if s = t then .inf s else .nan
  | .inf s, .fin _ => .inf s
  | .fin _, .inf t => .inf t
  | .fin a, .fin b => .fin (a + b)

/-- IEEE subtraction on `F64`, as addition of the negation. -/
noncomputable def F64.sub (a b : F64) : F64 :=
  F64.add a (F64.neg b)

/-- IEEE multiplication on `F64`: NaN propagates, `∞ * 0` is NaN,
infinities multiply by the sign rule, finite multiplication is exact. -/
noncomputable def F64.mul : F64 → F64 → F64
  | .nan, _ => .nan
  | _, .nan => .nan
  | .inf s, .inf t => .inf (s != t)
  | .inf s, .fin b => if b = 0 then .nan else .inf (s != decide (b < 0))
  | .fin a, .inf t => if a = 0 then .nan else .inf (decide (a < 0) != t)
  | .fin a, .fin b => .fin (a * b)

/-- IEEE division on `F64`: NaN propagates, `∞ / ∞` and `0 / 0` are NaN,
a nonzero finite value divided by zero is a signed infinity, a finite
value divided by an infinity is zero, finite division is exact. -/
noncomputable def F64.div : F64 → F64 → F64
  | .nan, _ => .nan
  | _, .nan => .nan
  | .inf _, .inf _ => .nan
  | .inf s, .fin b => .inf (s != decide (b < 0))
  | .fin _, .inf _ => .fin 0
  | .fin a, .fin b =>
    if b = 0 then (if a = 0 then .nan else .inf (decide (a < 0)))
    else .fin (a / b)

/-- IEEE square root on `F64`: NaN for NaN and negative arguments
(including `-∞`), `+∞` for `+∞`, exact real square root on nonnegative
finite values. -/
noncomputable def F64.sqrt : F64 → F64
  | .nan => .nan
  | .inf s => if s then .nan else .inf false
  | .fin r => if r < 0 then .nan else .fin (Real.sqrt r)

/-- Model of `f64::powi` on `F64`: integer powers with IEEE propagation
(`x^0 = 1` for numeric `x`, infinities by the parity-of-exponent sign
rule, `0` to a negative power is `+∞` since the model has a single,
positive zero). -/
noncomputable def F64.powi : F64 → ℤ → F64
  | .nan, _ => .nan
  | .inf s, n =>
    if n = 0 then .fin 1
    else if 0 < n then .inf (s && decide (n % 2 = 1))
    else .fin 0
  | .fin r, n =>
    if r = 0 ∧ n < 0 then .inf false
    else .fin (r ^ n)

/-- IEEE sine on `F64`: NaN on NaN and infinities, exact elsewhere. -/
noncomputable def F64.sin : F64 → F64
  | .fin r => .fin (Real.sin r)
  | _ => .nan

/-- IEEE cosine on `F64`: NaN on NaN and infinities, exact elsewhere. -/
noncomputable def F64.cos : F64 → F64
  | .fin r => .fin (Real.cos r)
  | _ => .nan

/-- IEEE `atan2` on `F64` (first argument `y`, second `x`): NaN
propagates; infinite arguments give the IEEE quadrant limits; finite
arguments follow the real `atan2R`. -/
noncomputable def F64.atan2 : F64 → F64 → F64
  | .nan, _ => .nan
  | _, .nan => .nan
  | .inf s, .inf t =>
    .fin ((if s then -1 else 1) * (if t then 3 else 1) * (Real.pi / 4))
  | .inf s, .fin _ => .fin (if s then -(Real.pi / 2) else Real.pi / 2)
  | .fin a, .inf t =>
    if t then .fin (if a < 0 then -Real.pi else Real.pi) else .fin 0
  | .fin a, .fin b => .fin (atan2R a b)

/-- IEEE `is_nan` on `F64`. -/
def F64.is_nan : F64 → Bool
  | .nan => true
  | _ => false

/-- IEEE `is_infinite` on `F64`: true exactly on the two infinities. -/
def F64.is_infinite : F64 → Bool
  | .inf _ => true
  | _ => false

/-- IEEE `is_finite` on `F64`: true exactly on finite values. -/
def F64.is_finite : F64 → Bool
  | .fin _ => true
  | _ => false

/-- IEEE `is_normal` on `F64`: zero, infinities and NaN are not normal;
subnormals are not representable in this exact model, so every nonzero
finite value is normal. -/
noncomputable def F64.is_normal : F64 → Bool
  | .fin r => decide (r ≠ 0)
  | _ => false

/-- The `F64` model instantiates the `num_traits::Float` interface. -/
noncomputable instance instFloatScalarF64 : FloatScalar F64 where
  add := F64.add
  sub := F64.sub
  mul := F64.mul
  div := F64.div
  neg := F64.neg
  sqrt := F64.sqrt
  powi := F64.powi
  sin := F64.sin
  cos := F64.cos
  atan2 := F64.atan2
  is_nan := F64.is_nan
  is_infinite := F64.is_infinite
  is_finite := F64.is_finite
  is_normal := F64.is_normal

/-- The zero vector over the `F64` model, the IEEE counterpart of
`consts::ZERO_F64`. -/
noncomputable def consts.ZERO_F64 : Vector2 F64 := ⟨.fin 0, .fin 0⟩

/-! Unfolding lemmas for the scalar instances, and a small arithmetic helper. -/

theorem powi_real (x : ℝ) (n : ℤ) : FloatScalar.powi x n = x ^ n := rfl

theorem sqrt_real (x : ℝ) : FloatScalar.sqrt x = Real.sqrt x := rfl

theorem sin_real (x : ℝ) : FloatScalar.sin x = Real.sin x := rfl

theorem cos_real (x : ℝ) : FloatScalar.cos x = Real.cos x := rfl

theorem atan2_real (y x : ℝ) : FloatScalar.atan2 y x = atan2R y x := rfl

theorem powi_f64 (x : F64) (n : ℤ) : FloatScalar.powi x n = F64.powi x n := rfl

theorem sqrt_f64 (x : F64) : FloatScalar.sqrt x = F64.sqrt x := rfl

theorem add_f64 (x y : F64) : x + y = F64.add x y := rfl

theorem mul_f64 (x y : F64) : x * y = F64.mul x y := rfl

theorem div_f64 (x y : F64) : x / y = F64.div x y := rfl

theorem is_finite_f64 (x : F64) : FloatScalar.is_finite x = F64.is_finite x := rfl

theorem zpowTwo (x : ℝ) : x ^ (2 : ℤ) = x * x := by
  rw [show (2 : ℤ) = ((2 : ℕ) : ℤ) by rfl, zpow_natCast, pow_two]

/-- C1: for every vector `v` of a floating scalar type, `length_squared v`
equals `dot v v`, even though `length_squared` is computed as
`x.powi(2) + y.powi(2)` and `dot` as `x*x + y*y`. Proved both over the
idealized real scalars and over the IEEE structure model `F64` (where it
also holds for NaN and infinite components, as equality of produced
values). -/
theorem C1_length_squared_eq_dot :
    (∀ v : Vector2 ℝ, v.length_squared = v.dot v) ∧
    (∀ v : Vector2 F64, v.length_squared = v.dot v) := by
  constructor
  · intro v
    simp only [Vector2.length_squared, Vector2.dot, powi_real, zpowTwo]
  · intro v
    rcases v with ⟨x, y⟩
    rcases x with _ | s | a <;> rcases y with _ | t | b <;>
      simp [Vector2.length_squared, Vector2.dot, powi_f64, add_f64, mul_f64,
        F64.powi, F64.add, F64.mul, zpowTwo]

/-- C2: for every vector `v` over the (idealized) floating scalars,
`det v v = 0`, and for every pair `a b`, `det a b = -(det b a)`, where
`det a b = a.x * b.y - a.y * b.x`. -/
theorem C2_det_self_zero_antisymm :
    (∀ v : Vector2 ℝ, v.det v = 0) ∧
    (∀ a b : Vector2 ℝ, a.det b = -(b.det a)) := by
  constructor
  · intro v
    simp [Vector2.det]
    ring
  · intro a b
    simp [Vector2.det]
    ring

/-- C3: for every vector `v` (idealized floating scalars),
`v + ZERO = v` and `v - v = ZERO`, where `ZERO` models the constant
`consts::ZERO_F32` / `consts::ZERO_F64 = (0, 0)` and equality is the
structural component-wise equality of `Vector2`. -/
theorem C3_zero_identity (v : Vector2 ℝ) :
    v.add consts.ZERO = v ∧ v.sub v = consts.ZERO := by
  rcases v with ⟨x, y⟩
  constructor <;> simp [Vector2.add, Vector2.sub, consts.ZERO]

/-- C4: for every vector `v` (any scalar type), converting to a 2-element
array and back yields `v`, converting to a 2-tuple and back yields `v`,
and array index 0 maps to the first component, index 1 to the second. -/
theorem C4_conversion_roundtrip {T : Type} (v : Vector2 T) :
    Vector2.from_array v.into_array = v ∧
    Vector2.from_tuple v.into_tuple = v ∧
    v.into_array 0 = v.x ∧ v.into_array 1 = v.y :=
  ⟨rfl, rfl, rfl, rfl⟩

/-- C5: for every vector `v` (idealized floating scalars),
`(v.normal).dot v = 0`, where `normal v = (-y, x)`: the perpendicular
vector's dot product with the original is zero. -/
theorem C5_normal_dot_zero (v : Vector2 ℝ) : (v.normal).dot v = 0 := by
  simp [Vector2.normal, Vector2.dot]
  ring

/-- C9: every in-place compound-assignment operator agrees with its pure
counterpart: `add_assign`/`sub_assign` produce `v + u`/`v - u`, and
`mul_assign`/`div_assign` produce `v * s`/`v / s`, for any scalar type
with the corresponding operations. -/
theorem C9_assign_pure_agree {T : Type} [Add T] [Sub T] [Mul T] [Div T]
    (v u : Vector2 T) (s : T) :
    v.add_assign u = v.add u ∧ v.sub_assign u = v.sub u ∧
    v.mul_assign s = v.mul s ∧ v.div_assign s = v.div s :=
  ⟨rfl, rfl, rfl, rfl⟩

/-- C10: over the IEEE structure model `F64`, the classification
predicates are mutually consistent: `is_all_finite v` is true exactly
when `is_any_nan v` and `is_any_infinite v` are both false. -/
theorem C10_classification_consistent (v : Vector2 F64) :
    v.is_all_finite = (!v.is_any_nan && !v.is_any_infinite) := by
  rcases v with ⟨x, y⟩
  rcases x <;> rcases y <;> rfl

/-- C6: for every angle `a`, `unit_vector a` is the vector
`(cos a, sin a)` (cosine first, sine second); in particular
`unit_vector 0 = (1, 0)` with length `1`, and
`unit_vector (π/2) = (0, 1)` (exact over the idealized real scalars,
hence within floating tolerance). -/
theorem C6_unit_vector_cos_sin :
    (∀ a : ℝ, Vector2.unit_vector a = ⟨Real.cos a, Real.sin a⟩) ∧
    Vector2.unit_vector (0 : ℝ) = ⟨1, 0⟩ ∧
    (Vector2.unit_vector (0 : ℝ)).length = 1 ∧
    Vector2.unit_vector (Real.pi / 2) = ⟨0, 1⟩ := by
  have h : ∀ a : ℝ, Vector2.unit_vector a = ⟨Real.cos a, Real.sin a⟩ := fun a => rfl
  refine ⟨h, ?_, ?_, ?_⟩
  · rw [h]
    simp
  · rw [h, Vector2.length, Vector2.length_squared]
    simp only [powi_real, sqrt_real, zpowTwo]
    norm_num [Real.sqrt_one]
  · rw [h]
    simp

/-- C7: for every pair of vectors, `direction_to self other` equals
`(other - self).direction` where `direction v = atan2 v.y v.x`; and
concretely, the direction from `(1, 0)` to `(0, 1)` is the angle
`3π/4` (exact over the idealized real scalars). -/
theorem C7_direction_to_spec :
    (∀ a b : Vector2 ℝ, a.direction_to b = (b.sub a).direction) ∧
    (Vector2.mk (1 : ℝ) 0).direction_to ⟨0, 1⟩ = 3 * Real.pi / 4 := by
  refine ⟨fun a b => rfl, ?_⟩
  show ((Vector2.mk (0 : ℝ) 1).sub ⟨1, 0⟩).direction = 3 * Real.pi / 4
  simp only [Vector2.sub, Vector2.direction, atan2_real]
  norm_num
  rw [atan2R, if_neg (by norm_num), if_pos (by norm_num), if_pos (by norm_num),
    show (1 : ℝ) / (-1) = -1 by norm_num, Real.arctan_neg, Real.arctan_one]
  ring

/-- C8: `normalise` is exactly `self / self.length()` (for any scalar
model of the `Float` interface), and it is total: on the IEEE structure
model `F64`, applied to any zero-length vector it returns (rather than
raising or aborting) a vector none of whose components is finite. -/
theorem C8_normalise_total :
    (∀ (T : Type) [FloatScalar T] (v : Vector2 T), v.normalise = v.div v.length) ∧
    (∀ v : Vector2 F64, v.length = F64.fin 0 → v.normalise.is_all_finite = false) := by
  constructor
  · intro T _ v
    rfl
  · intro v h
    rcases v with ⟨x, y⟩
    rcases x with _ | s | a <;> rcases y with _ | t | b <;>
      simp [Vector2.length, Vector2.length_squared, powi_f64, add_f64, sqrt_f64,
        F64.powi, F64.add, F64.sqrt, zpowTwo] at h
    have hnn : 0 ≤ a * a + b * b := add_nonneg (mul_self_nonneg a) (mul_self_nonneg b)
    rw [if_neg (not_lt.mpr hnn)] at h
    simp only [F64.fin.injEq] at h
    have h0 : a * a + b * b = 0 := (Real.sqrt_eq_zero hnn).mp h
    have ha : a = 0 := by nlinarith [mul_self_nonneg a, mul_self_nonneg b]
    have hb : b = 0 := by nlinarith [mul_self_nonneg a, mul_self_nonneg b]
    subst ha hb
    norm_num [Vector2.normalise, Vector2.div, Vector2.length, Vector2.length_squared,
      Vector2.is_all_finite, powi_f64, add_f64, sqrt_f64, div_f64, is_finite_f64,
      F64.powi, F64.add, F64.sqrt, F64.div, F64.is_finite, zpowTwo]

/-- Witness for C8: the zero vector itself has length `0`, and
normalising it yields components that are not finite. -/
theorem C8_normalise_total_witness :
    consts.ZERO_F64.length = F64.fin 0 ∧
    consts.ZERO_F64.normalise.is_all_finite = false := by
  have hlen : consts.ZERO_F64.length = F64.fin 0 := by
    norm_num [consts.ZERO_F64, Vector2.length, Vector2.length_squared, powi_f64,
      add_f64, sqrt_f64, F64.powi, F64.add, F64.sqrt, zpowTwo]
  exact ⟨hlen, C8_normalise_total.2 consts.ZERO_F64 hlen⟩
